import Mathlib

/-!
Verification of the lcd1602a-i2c driver core (src/lcd1602a-i2c.c).

Shallow embedding: machine bytes are `Nat` values below 256, bit operations
use `&&&`, `|||`, `<<<`, `>>>` exactly as the C source does.  Side effects
(I2C byte writes and busy-wait delays) are recorded as an event trace inside
an explicit state record `Sys`; the mutex is a boolean flag; the possibility
of a transport failure is modelled by an oracle `fail : Nat -> Bool` giving
the success of the n-th transport write, whose result is returned by
`lcd1602a_write_byte` exactly as in the source (where every caller discards
it as an expression statement).
-/

/-- PCF8574 pin masks, from the source defines. RS_PIN = GPIO0. -/
def RS_PIN : Nat := 1
/-- RW_PIN = GPIO1 (never asserted: write-only design). -/
def RW_PIN : Nat := 2
/-- E_PIN = GPIO2, the enable strobe bit. -/
def E_PIN : Nat := 4
/-- K_PIN = GPIO3, the backlight bit. -/
def K_PIN : Nat := 8

/-- CMD_LCD_CLEAR from the source. -/
def CMD_LCD_CLEAR : Nat := 0x01
/-- CMD_RETURN_CURSOR from the source. -/
def CMD_RETURN_CURSOR : Nat := 0x02
/-- CMD_SHIFT_CURSOR_R from the source (value 0x06; on the HD44780 this byte
is the entry-mode-set instruction with increment and no display shift). -/
def CMD_SHIFT_CURSOR_R : Nat := 0x06
/-- CMD_LCD_POWEROFF from the source. -/
def CMD_LCD_POWEROFF : Nat := 0x08
/-- CMD_REMOVE_CURSOR from the source (display on, cursor off). -/
def CMD_REMOVE_CURSOR : Nat := 0x0c
/-- CMD_LINE_CURSOR from the source (value 0x0e: display on, cursor on). -/
def CMD_LINE_CURSOR : Nat := 0x0e
/-- CMD_4BIT_2ROWS from the source. -/
def CMD_4BIT_2ROWS : Nat := 0x28

/-- CMD_INIT_UDELAY from the source. -/
def CMD_INIT_UDELAY : Nat := 2500
/-- CMD_USUAL_UDELAY from the source. -/
def CMD_USUAL_UDELAY : Nat := 500
/-- NO_CMD_UDELAY from the source. -/
def NO_CMD_UDELAY : Nat := 50

/-- The HD44780 entry-mode-set instruction with increment and no shift
(I/D = 1, S = 0), i.e. the byte 0b0000_0110.  Used to interpret the
spec wording "Entry-Mode(increment, no shift)" as a byte value. -/
def ENTRY_MODE_INC_NOSHIFT : Nat := 0x06

/-- One observable side effect of the driver core: a single-byte I2C
transport write (`i2c_smbus_write_byte`) or a busy-wait (`udelay`). -/
inductive Event where
  | write (b : Nat)
  | delay (us : Nat)
deriving Repr, DecidableEq

/-- The driver state: the `power` and `light` flags of `struct lcd1602a_t`,
the mutex (`locked`), and the accumulated trace of observable events. -/
structure Sys where
  power : Bool
  light : Bool
  locked : Bool
  events : List Event
deriving Repr, DecidableEq

/-- Bytes sent over the transport, in order, extracted from a trace. -/
def writesOf : List Event → List Nat
  | [] => []
  | Event.write b :: rest => b :: writesOf rest
  | Event.delay _ :: rest => writesOf rest

/-- Number of transport writes issued so far (indexes the failure oracle). -/
def nWrites (s : Sys) : Nat := (writesOf s.events).length

/-- Embedding of `lcd1602a_write_byte`: one I2C byte write.  Returns 0 on success and a
negative errno (here -5, -EIO) on failure, as decided by the oracle for the
current write index; the byte goes on the trace either way, since the
physical write is attempted exactly once. -/
def lcd1602a_write_byte (fail : Nat → Bool) (s : Sys) (data : Nat) : Int × Sys :=
  (if fail (nWrites s) then -5 else 0,
   { s with events := s.events ++ [Event.write data] })

/-- Embedding of `udelay(n)`: record the busy wait on the trace. -/
def udelay (s : Sys) (us : Nat) : Sys :=
  { s with events := s.events ++ [Event.delay us] }

/-- Embedding of `mutex_lock`. -/
def mutex_lock (s : Sys) : Sys := { s with locked := true }

/-- Embedding of `mutex_unlock`. -/
def mutex_unlock (s : Sys) : Sys := { s with locked := false }

/-- Embedding of `lcd1602a_send_command`: transfer one command byte as two 4-bit nibble
transactions (high nibble then low nibble), strobing E high then low for
each, with the source's delays.  The result of each transport write is
discarded, exactly as in the source (expression statements). -/
def lcd1602a_send_command (fail : Nat → Bool) (s : Sys) (cmd : Nat) : Sys :=
  -- send upper 4 bits of cmd
  let data := (if s.light then K_PIN else 0) ||| (cmd &&& 0xf0) ||| E_PIN
  let s := (lcd1602a_write_byte fail s data).2
  let s := udelay s NO_CMD_UDELAY
  let data := data &&& 0xfb  -- data &= ~E_PIN on a u8
  let s := (lcd1602a_write_byte fail s data).2
  let s := udelay s CMD_USUAL_UDELAY
  -- send lower 4 bits of cmd
  let data := (if s.light then K_PIN else 0) ||| ((cmd &&& 0x0f) <<< 4) ||| E_PIN
  let s := (lcd1602a_write_byte fail s data).2
  let s := udelay s NO_CMD_UDELAY
  let data := data &&& 0xfb
  let s := (lcd1602a_write_byte fail s data).2
  udelay s CMD_USUAL_UDELAY

/-- Embedding of `lcd1602a_put_char`: identical to `lcd1602a_send_command` except that
RS_PIN is asserted on every byte (data register instead of command
register). -/
def lcd1602a_put_char (fail : Nat → Bool) (s : Sys) (ch : Nat) : Sys :=
  -- send upper 4 bits of char
  let data := (if s.light then K_PIN else 0) ||| (ch &&& 0xf0) ||| RS_PIN ||| E_PIN
  let s := (lcd1602a_write_byte fail s data).2
  let s := udelay s NO_CMD_UDELAY
  let data := data &&& 0xfb
  let s := (lcd1602a_write_byte fail s data).2
  let s := udelay s CMD_USUAL_UDELAY
  -- send lower 4 bits of char
  let data := (if s.light then K_PIN else 0) ||| ((ch &&& 0x0f) <<< 4) ||| RS_PIN ||| E_PIN
  let s := (lcd1602a_write_byte fail s data).2
  let s := udelay s NO_CMD_UDELAY
  let data := data &&& 0xfb
  let s := (lcd1602a_write_byte fail s data).2
  udelay s CMD_USUAL_UDELAY

/-- Embedding of `lcd1602a_poweron`: the power-on sequence exactly as in the source. -/
def lcd1602a_poweron (fail : Nat → Bool) (s : Sys) : Sys :=
  let s := { s with power := true, light := true }
  let s := lcd1602a_send_command fail s CMD_LCD_CLEAR
  let s := udelay s CMD_INIT_UDELAY
  let s := lcd1602a_send_command fail s CMD_RETURN_CURSOR
  let s := udelay s CMD_INIT_UDELAY
  let s := lcd1602a_send_command fail s CMD_4BIT_2ROWS
  let s := lcd1602a_send_command fail s CMD_LINE_CURSOR
  let s := lcd1602a_send_command fail s CMD_REMOVE_CURSOR
  let s := lcd1602a_send_command fail s CMD_SHIFT_CURSOR_R
  let s := lcd1602a_send_command fail s CMD_LCD_CLEAR
  udelay s CMD_INIT_UDELAY

/-- Embedding of `lcd1602a_poweroff`: the power-off sequence exactly as in the source
(note that it unconditionally sets `power := true, light := true` first). -/
def lcd1602a_poweroff (fail : Nat → Bool) (s : Sys) : Sys :=
  let s := { s with power := true, light := true }
  let s := lcd1602a_send_command fail s CMD_LCD_CLEAR
  let s := udelay s CMD_INIT_UDELAY
  let s := lcd1602a_send_command fail s CMD_RETURN_CURSOR
  let s := udelay s CMD_INIT_UDELAY
  let s := { s with light := false }
  let s := lcd1602a_send_command fail s CMD_LCD_POWEROFF
  let s := udelay s CMD_INIT_UDELAY
  { s with power := false }

/-- Embedding of `lcd1602a_clear`: the clear sequence exactly as in the source. -/
def lcd1602a_clear (fail : Nat → Bool) (s : Sys) : Sys :=
  let s := lcd1602a_send_command fail s CMD_RETURN_CURSOR
  let s := udelay s CMD_INIT_UDELAY
  let s := lcd1602a_send_command fail s CMD_LCD_CLEAR
  let s := udelay s CMD_INIT_UDELAY
  lcd1602a_send_command fail s CMD_SHIFT_CURSOR_R

/-- The character loop of `lcd1602a_write`: for indexes `i, i+1, ...` while
`n` octets remain, fetch the octet with `get_user` (`none` models a fault)
and send it with `lcd1602a_put_char`.  On a fault the source returns
-EFAULT at once — crucially without unlocking — so the loop result is
`Except.error` carrying the state at the fault. -/
def writeLoop (fail : Nat → Bool) (buf : Nat → Option Nat) :
    Nat → Nat → Sys → Except Sys Sys
  | _, 0, s => Except.ok s
  | i, n + 1, s =>
    match buf i with
    | none => Except.error s
    | some ch => writeLoop fail buf (i + 1) n (lcd1602a_put_char fail s ch)

/-- Embedding of `lcd1602a_write`, the device-file write handler.  `accessOk` models the
`access_ok` boundary check on the user buffer; `buf i` models
`get_user(ch, buf + i)` (`none` = fault); `count` is the requested octet
count.  Returns the ssize_t result (negative errno or octets consumed)
and the final state. -/
def lcd1602a_write (fail : Nat → Bool) (accessOk : Bool) (buf : Nat → Option Nat)
    (count : Nat) (s : Sys) : Int × Sys :=
  if !accessOk then (-14, s)  -- -EFAULT
  else
    let count := if count > 16 then 16 else count
    if !s.power then (0, s)
    else
      let s := mutex_lock s
      let s := lcd1602a_poweron fail s
      match writeLoop fail buf 0 count s with
      | Except.error s => (-14, s)  -- returns with the mutex still held
      | Except.ok s => ((count : Int), mutex_unlock s)

/-- Decimal scan of `sscanf(buf, "%d", ...)` at its libc boundary: skip
leading whitespace, accept an optional sign, then require at least one
digit; `none` when no integer can be scanned (in which case the source's
`code` keeps its initial value 0). -/
def scanDigits (cs : List Char) : Option Nat :=
  let ds := cs.takeWhile Char.isDigit
  if ds.isEmpty then none
  else some (ds.foldl (fun a c => a * 10 + (c.toNat - 48)) 0)

/-- See `scanDigits`; this is the full `%d` conversion. -/
def sscanf_d (buf : String) : Option Int :=
  let cs := buf.data.dropWhile fun c => c = ' ' ∨ c = '\t' ∨ c = '\n' ∨ c = '\r'
  match cs with
  | '-' :: rest => (scanDigits rest).map fun n => -(n : Int)
  | '+' :: rest => (scanDigits rest).map fun n => (n : Int)
  | _ => (scanDigits cs).map fun n => (n : Int)

/-- Embedding of `lcd1602a_power_show`, the sysfs read handler: under the mutex, format
`power` with `sprintf("%d\n", ...)` and return the byte count. -/
def lcd1602a_power_show (s : Sys) : String × Int × Sys :=
  let s := mutex_lock s
  let out := (if s.power then "1" else "0") ++ "\n"
  let s := mutex_unlock s
  (out, (out.length : Int), s)

/-- Embedding of `lcd1602a_power_store`, the sysfs write handler: under the mutex, scan a
decimal integer (`code` stays 0 when the scan fails), run the power-off
sequence when it is zero and the power-on sequence otherwise, and return
the full input count. -/
def lcd1602a_power_store (fail : Nat → Bool) (buf : String) (count : Nat)
    (s : Sys) : Nat × Sys :=
  let s := mutex_lock s
  let code : Int := (sscanf_d buf).getD 0
  let s := if code = 0 then lcd1602a_poweroff fail s else lcd1602a_poweron fail s
  (count, mutex_unlock s)

/-- Embedding of `lcd1602a_probe` (success path): the driver state is zero-allocated
(`power = false, light = false`, mutex free, no events yet) and then the
power-on sequence runs once. -/
def lcd1602a_probe (fail : Nat → Bool) : Sys :=
  lcd1602a_poweron fail { power := false, light := false, locked := false, events := [] }

/-- The eight events one `lcd1602a_send_command` call appends to the trace
(four transport writes interleaved with the four settle delays). -/
def cmdDelta (light : Bool) (cmd : Nat) : List Event :=
  [Event.write ((if light then K_PIN else 0) ||| (cmd &&& 0xf0) ||| E_PIN),
   Event.delay NO_CMD_UDELAY,
   Event.write (((if light then K_PIN else 0) ||| (cmd &&& 0xf0) ||| E_PIN) &&& 0xfb),
   Event.delay CMD_USUAL_UDELAY,
   Event.write ((if light then K_PIN else 0) ||| ((cmd &&& 0x0f) <<< 4) ||| E_PIN),
   Event.delay NO_CMD_UDELAY,
   Event.write (((if light then K_PIN else 0) ||| ((cmd &&& 0x0f) <<< 4) ||| E_PIN) &&& 0xfb),
   Event.delay CMD_USUAL_UDELAY]

/-- The eight events one `lcd1602a_put_char` call appends to the trace. -/
def dataDelta (light : Bool) (ch : Nat) : List Event :=
  [Event.write ((if light then K_PIN else 0) ||| (ch &&& 0xf0) ||| RS_PIN ||| E_PIN),
   Event.delay NO_CMD_UDELAY,
   Event.write (((if light then K_PIN else 0) ||| (ch &&& 0xf0) ||| RS_PIN ||| E_PIN) &&& 0xfb),
   Event.delay CMD_USUAL_UDELAY,
   Event.write ((if light then K_PIN else 0) ||| ((ch &&& 0x0f) <<< 4) ||| RS_PIN ||| E_PIN),
   Event.delay NO_CMD_UDELAY,
   Event.write (((if light then K_PIN else 0) ||| ((ch &&& 0x0f) <<< 4) ||| RS_PIN ||| E_PIN) &&& 0xfb),
   Event.delay CMD_USUAL_UDELAY]

lemma send_command_spec (fail : Nat → Bool) (s : Sys) (cmd : Nat) :
    lcd1602a_send_command fail s cmd =
      { s with events := s.events ++ cmdDelta s.light cmd } := by
  simp [lcd1602a_send_command, lcd1602a_write_byte, udelay, cmdDelta,
    List.append_assoc]

lemma put_char_spec (fail : Nat → Bool) (s : Sys) (ch : Nat) :
    lcd1602a_put_char fail s ch =
      { s with events := s.events ++ dataDelta s.light ch } := by
  simp [lcd1602a_put_char, lcd1602a_write_byte, udelay, dataDelta,
    List.append_assoc]

/-- The full event trace of one power-on sequence. -/
def poweronEvents : List Event :=
  cmdDelta true CMD_LCD_CLEAR ++ [Event.delay CMD_INIT_UDELAY] ++
  cmdDelta true CMD_RETURN_CURSOR ++ [Event.delay CMD_INIT_UDELAY] ++
  cmdDelta true CMD_4BIT_2ROWS ++ cmdDelta true CMD_LINE_CURSOR ++
  cmdDelta true CMD_REMOVE_CURSOR ++ cmdDelta true CMD_SHIFT_CURSOR_R ++
  cmdDelta true CMD_LCD_CLEAR ++ [Event.delay CMD_INIT_UDELAY]

/-- The full event trace of one power-off sequence. -/
def poweroffEvents : List Event :=
  cmdDelta true CMD_LCD_CLEAR ++ [Event.delay CMD_INIT_UDELAY] ++
  cmdDelta true CMD_RETURN_CURSOR ++ [Event.delay CMD_INIT_UDELAY] ++
  cmdDelta false CMD_LCD_POWEROFF ++ [Event.delay CMD_INIT_UDELAY]

lemma poweron_spec (fail : Nat → Bool) (s : Sys) :
    lcd1602a_poweron fail s =
      { s with power := true, light := true,
               events := s.events ++ poweronEvents } := by
  simp [lcd1602a_poweron, send_command_spec, udelay, poweronEvents,
    List.append_assoc]

lemma poweroff_spec (fail : Nat → Bool) (s : Sys) :
    lcd1602a_poweroff fail s =
      { s with power := false, light := false,
               events := s.events ++ poweroffEvents } := by
  simp [lcd1602a_poweroff, send_command_spec, udelay, poweroffEvents,
    List.append_assoc]

lemma clear_spec (fail : Nat → Bool) (s : Sys) :
    lcd1602a_clear fail s =
      { s with events := s.events ++
          (cmdDelta s.light CMD_RETURN_CURSOR ++ [Event.delay CMD_INIT_UDELAY] ++
           cmdDelta s.light CMD_LCD_CLEAR ++ [Event.delay CMD_INIT_UDELAY] ++
           cmdDelta s.light CMD_SHIFT_CURSOR_R) } := by
  simp [lcd1602a_clear, send_command_spec, udelay, List.append_assoc]

/-- Reconstruct the bytes transferred through the 4-bit interface from the
raw write list: each group of four writes is one byte (high nibble from the
first write's bits 4-7, low nibble from the third write's bits 4-7). -/
def decode4 : List Nat → List Nat
  | w0 :: _ :: w2 :: _ :: rest =>
      ((w0 &&& 0xf0) ||| ((w2 >>> 4) &&& 0x0f)) :: decode4 rest
  | _ => []

/-- All bytes transferred by a trace (commands and characters alike). -/
def decodedBytes (es : List Event) : List Nat := decode4 (writesOf es)

/-- The character-data bytes transferred by a trace: keep only the writes
with the register-select bit set, then regroup nibbles. -/
def sentData (es : List Event) : List Nat :=
  decode4 ((writesOf es).filter fun w => w.testBit 0)

/-- The spec's `sendByte`: dispatch on `isData` between the command-register
path (`lcd1602a_send_command`) and the data-register path
(`lcd1602a_put_char`). -/
def sendByte (fail : Nat → Bool) (isData : Bool) (s : Sys) (b : Nat) : Sys :=
  if isData then lcd1602a_put_char fail s b else lcd1602a_send_command fail s b

/-- What one nibble-transfer write must look like on the wire: bits 4-7 are
the nibble, bit 0 the register select, bit 1 the (always-write) direction,
bit 2 the enable strobe, bit 3 the backlight. -/
def nibbleWriteOk (isData light strobe : Bool) (nib w : Nat) : Prop :=
  (w >>> 4) &&& 0x0f = nib ∧ w.testBit 0 = isData ∧ w.testBit 1 = false ∧
  w.testBit 2 = strobe ∧ w.testBit 3 = light

instance (isData light strobe : Bool) (nib w : Nat) :
    Decidable (nibbleWriteOk isData light strobe nib w) := by
  unfold nibbleWriteOk; infer_instance

lemma sendByte_nibbles : ∀ (light isData : Bool) (b : Fin 256),
    (writesOf (if isData then dataDelta light b.val else cmdDelta light b.val)).length = 4 ∧
    nibbleWriteOk isData light true (b.val >>> 4)
      ((writesOf (if isData then dataDelta light b.val else cmdDelta light b.val)).getD 0 0) ∧
    nibbleWriteOk isData light false (b.val >>> 4)
      ((writesOf (if isData then dataDelta light b.val else cmdDelta light b.val)).getD 1 0) ∧
    nibbleWriteOk isData light true (b.val &&& 0x0f)
      ((writesOf (if isData then dataDelta light b.val else cmdDelta light b.val)).getD 2 0) ∧
    nibbleWriteOk isData light false (b.val &&& 0x0f)
      ((writesOf (if isData then dataDelta light b.val else cmdDelta light b.val)).getD 3 0) := by
  set_option maxRecDepth 4096 in decide

/-- C1: for every 8-bit byte `b` and flag `isData`, sending `b` (via
`lcd1602a_send_command` when `isData` is false, `lcd1602a_put_char` when it
is true) issues exactly 4 transport writes, in the order high-nibble with
strobe high, high-nibble with strobe low, low-nibble with strobe high,
low-nibble with strobe low, where each written byte carries the selected
nibble of `b` in bits 4-7, bit 0 = `isData`, bit 1 = 0 always, bit 2 = the
strobe, and bit 3 = the current backlight flag. -/
theorem sendByte_four_writes :
    ∀ (fail : Nat → Bool) (p lk light isData : Bool) (b : Fin 256),
    (writesOf (sendByte fail isData ⟨p, light, lk, []⟩ b.val).events).length = 4 ∧
    nibbleWriteOk isData light true (b.val >>> 4)
      ((writesOf (sendByte fail isData ⟨p, light, lk, []⟩ b.val).events).getD 0 0) ∧
    nibbleWriteOk isData light false (b.val >>> 4)
      ((writesOf (sendByte fail isData ⟨p, light, lk, []⟩ b.val).events).getD 1 0) ∧
    nibbleWriteOk isData light true (b.val &&& 0x0f)
      ((writesOf (sendByte fail isData ⟨p, light, lk, []⟩ b.val).events).getD 2 0) ∧
    nibbleWriteOk isData light false (b.val &&& 0x0f)
      ((writesOf (sendByte fail isData ⟨p, light, lk, []⟩ b.val).events).getD 3 0) := by
  intro fail p lk light isData b
  have h : (sendByte fail isData ⟨p, light, lk, []⟩ b.val).events
      = (if isData then dataDelta light b.val else cmdDelta light b.val) := by
    cases isData <;> simp [sendByte, send_command_spec, put_char_spec]
  rw [h]
  exact sendByte_nibbles light isData b

/-- C3 (amended): from any initial state, `lcd1602a_poweron` first sets
`power := true, light := true` and then issues exactly Clear-Display with a
2500-unit wait, Return-Cursor-Home with a 2500-unit wait, Function-Set
(4-bit, 2 rows, 0x28), Display-Control with cursor shown (0x0e),
Display-Control without cursor (0x0c), Entry-Mode increment/no-shift (0x06,
the byte the source labels shift-cursor-right), and Clear-Display with a
2500-unit wait — in that order with no other commands. -/
theorem poweron_command_sequence : ∀ (fail : Nat → Bool) (p l lk : Bool),
    lcd1602a_poweron fail ⟨p, l, lk, []⟩ =
      ⟨true, true, lk,
       cmdDelta true CMD_LCD_CLEAR ++ [Event.delay CMD_INIT_UDELAY] ++
       cmdDelta true CMD_RETURN_CURSOR ++ [Event.delay CMD_INIT_UDELAY] ++
       cmdDelta true CMD_4BIT_2ROWS ++ cmdDelta true CMD_LINE_CURSOR ++
       cmdDelta true CMD_REMOVE_CURSOR ++ cmdDelta true CMD_SHIFT_CURSOR_R ++
       cmdDelta true CMD_LCD_CLEAR ++ [Event.delay CMD_INIT_UDELAY]⟩ ∧
    decodedBytes (lcd1602a_poweron fail ⟨p, l, lk, []⟩).events =
      [CMD_LCD_CLEAR, CMD_RETURN_CURSOR, CMD_4BIT_2ROWS, CMD_LINE_CURSOR,
       CMD_REMOVE_CURSOR, CMD_SHIFT_CURSOR_R, CMD_LCD_CLEAR] := by
  intro fail p l lk
  rw [poweron_spec]
  refine ⟨by simp [poweronEvents], ?_⟩
  show decodedBytes ([] ++ poweronEvents) = _
  decide

/-- C3 (counterexample to the claim as stated): the fourth byte transferred
by the power-on sequence is 0x0e (`CMD_LINE_CURSOR`, a display-control
instruction with the cursor shown), not the Entry-Mode(increment, no shift)
instruction 0x06 that the claim places there. -/
theorem poweron_sequence_cex :
    (decodedBytes (lcd1602a_poweron (fun _ => false)
        ⟨false, false, false, []⟩).events).get? 3 = some CMD_LINE_CURSOR ∧
    CMD_LINE_CURSOR ≠ ENTRY_MODE_INC_NOSHIFT := by
  decide

/-- C5: `lcd1602a_poweroff` issues Clear-Display (then a 2500-unit wait),
Return-Cursor-Home (then a 2500-unit wait), then with the backlight flag
now false issues the Power-Off-Display instruction (then a 2500-unit wait),
and ends with `power = false, light = false`; consequently power-on
followed immediately by power-off leaves both flags false. -/
theorem poweroff_sequence : ∀ (fail : Nat → Bool) (p l lk : Bool),
    lcd1602a_poweroff fail ⟨p, l, lk, []⟩ =
      ⟨false, false, lk,
       cmdDelta true CMD_LCD_CLEAR ++ [Event.delay CMD_INIT_UDELAY] ++
       cmdDelta true CMD_RETURN_CURSOR ++ [Event.delay CMD_INIT_UDELAY] ++
       cmdDelta false CMD_LCD_POWEROFF ++ [Event.delay CMD_INIT_UDELAY]⟩ ∧
    (lcd1602a_poweroff fail (lcd1602a_poweron fail ⟨p, l, lk, []⟩)).power = false ∧
    (lcd1602a_poweroff fail (lcd1602a_poweron fail ⟨p, l, lk, []⟩)).light = false := by
  intro fail p l lk
  rw [poweroff_spec, poweroff_spec, poweron_spec]
  exact ⟨by simp [poweroffEvents], rfl, rfl⟩

/-- C10: `lcd1602a_poweroff` unconditionally sets `power := true` and
`light := true` before issuing anything, so its event trace is the same
from every initial state, and the first eight transport writes (the
Clear-Display and Return-Cursor-Home transfers) all carry the backlight
bit (bit 3) — even when invoked on a display that was already off. -/
theorem poweroff_backlight_preamble : ∀ (fail : Nat → Bool) (p l lk : Bool),
    (lcd1602a_poweroff fail ⟨p, l, lk, []⟩).events
      = (lcd1602a_poweroff fail ⟨true, true, lk, []⟩).events ∧
    (writesOf (lcd1602a_poweroff fail ⟨p, l, lk, []⟩).events).take 8
      = writesOf (cmdDelta true CMD_LCD_CLEAR ++ cmdDelta true CMD_RETURN_CURSOR) ∧
    (((writesOf (lcd1602a_poweroff fail ⟨p, l, lk, []⟩).events).take 8).all
      fun w => w.testBit 3) = true := by
  intro fail p l lk
  rw [poweroff_spec, poweroff_spec]
  refine ⟨rfl, ?_, ?_⟩
  · show (writesOf ([] ++ poweroffEvents)).take 8 = _
    decide
  · show (((writesOf ([] ++ poweroffEvents)).take 8).all fun w => w.testBit 3) = true
    decide

/-- C6: on an unpowered session, the device-file write handler returns 0,
issues no transport write, and leaves the whole state (in particular the
`power` and `light` flags) unchanged, for every accessible input buffer and
every requested count. -/
theorem write_unpowered_noop : ∀ (fail : Nat → Bool) (buf : Nat → Option Nat)
    (count : Nat) (l lk : Bool),
    lcd1602a_write fail true buf count ⟨false, l, lk, []⟩
      = (0, ⟨false, l, lk, []⟩) := by
  intro fail buf count l lk
  simp [lcd1602a_write]

/-- C8: reading the power attribute yields the decimal digit of the current
`power` flag (formatted with a trailing newline); writing a buffer whose
`%d` scan yields 0 — or fails, leaving the scanned value at its initial 0 —
runs exactly the power-off sequence, while a buffer scanning to a nonzero
integer runs exactly the power-on sequence; the store handler returns the
full input count either way and releases the mutex. -/
theorem power_attribute_behavior : ∀ (fail : Nat → Bool) (buf : String)
    (count : Nat) (p l lk : Bool),
    (lcd1602a_power_store fail buf count ⟨p, l, lk, []⟩).1 = count ∧
    (lcd1602a_power_store fail buf count ⟨p, l, lk, []⟩).2 =
      (if (sscanf_d buf).getD 0 = 0
       then ⟨false, false, false, poweroffEvents⟩
       else ⟨true, true, false, poweronEvents⟩) ∧
    (lcd1602a_power_show ⟨p, l, lk, []⟩).1 = (if p then "1" else "0") ++ "\n" ∧
    (lcd1602a_power_show ⟨p, l, lk, []⟩).2.2 = ⟨p, l, false, []⟩ := by
  intro fail buf count p l lk
  refine ⟨rfl, ?_, by simp [lcd1602a_power_show, mutex_lock, mutex_unlock],
    by simp [lcd1602a_power_show, mutex_lock, mutex_unlock]⟩
  show (lcd1602a_power_store fail buf count ⟨p, l, lk, []⟩).2 = _
  by_cases h : (sscanf_d buf).getD 0 = 0
  · simp [lcd1602a_power_store, h, poweroff_spec, mutex_lock, mutex_unlock]
  · simp [lcd1602a_power_store, h, poweron_spec, mutex_lock, mutex_unlock]

lemma writeLoop_fail_irrel (f1 f2 : Nat → Bool) (buf : Nat → Option Nat) :
    ∀ (n i : Nat) (s : Sys), writeLoop f1 buf i n s = writeLoop f2 buf i n s := by
  intro n
  induction n with
  | zero => intro i s; rfl
  | succ n ih =>
    intro i s
    show (match buf i with
          | none => Except.error s
          | some ch => writeLoop f1 buf (i + 1) n (lcd1602a_put_char f1 s ch)) = _
    cases hb : buf i with
    | none => simp [writeLoop, hb]
    | some ch =>
      simp only [writeLoop, hb]
      rw [put_char_spec, put_char_spec, ih]

lemma write_fail_irrel (f1 f2 : Nat → Bool) (accessOk : Bool)
    (buf : Nat → Option Nat) (count : Nat) (s : Sys) :
    lcd1602a_write f1 accessOk buf count s = lcd1602a_write f2 accessOk buf count s := by
  cases accessOk with
  | false => rfl
  | true =>
    show (if !true then _ else _) = _
    simp only [lcd1602a_write, Bool.not_true, Bool.false_eq_true, if_false]
    cases hp : s.power with
    | false => simp [hp]
    | true =>
      simp only [hp, Bool.not_true, Bool.false_eq_true, if_false]
      rw [poweron_spec, poweron_spec, writeLoop_fail_irrel]

/-- C2 (amended): transport write failures are ignored, not propagated:
`lcd1602a_write_byte` returns the transport status, but every caller
discards it, so the result and the emitted event trace of every operation
— a command transfer, a character transfer, a device-file write, a power
transition — are identical under any two failure oracles, and in
particular a transfer whose underlying transport writes all failed
completes exactly as if they had succeeded (there is also no retry: the
trace holds each byte exactly once). -/
theorem transport_error_ignored : ∀ (f1 f2 : Nat → Bool) (s : Sys)
    (cmd ch : Nat) (accessOk : Bool) (buf : Nat → Option Nat) (count : Nat)
    (sbuf : String) (scount : Nat),
    lcd1602a_send_command f1 s cmd = lcd1602a_send_command f2 s cmd ∧
    lcd1602a_put_char f1 s ch = lcd1602a_put_char f2 s ch ∧
    lcd1602a_write f1 accessOk buf count s = lcd1602a_write f2 accessOk buf count s ∧
    lcd1602a_power_store f1 sbuf scount s = lcd1602a_power_store f2 sbuf scount s := by
  intro f1 f2 s cmd ch accessOk buf count sbuf scount
  refine ⟨rfl, rfl, write_fail_irrel f1 f2 accessOk buf count s, ?_⟩
  show (scount, mutex_unlock _) = (scount, mutex_unlock _)
  by_cases h : (sscanf_d sbuf).getD 0 = 0 <;>
    simp [h, poweron_spec, poweroff_spec]

/-- C2 (counterexample to the claim as stated): with a transport that fails
every single write, a one-character device-file write on a powered session
still returns 1 — the octet count, a success — after issuing all 32
transport writes (28 for the re-initialization, 4 for the character); the
error reaches no caller. -/
theorem transport_error_ignored_cex :
    (lcd1602a_write (fun _ => true) true (fun _ => some 72) 1
        ⟨true, true, false, []⟩).1 = 1 ∧
    (writesOf (lcd1602a_write (fun _ => true) true (fun _ => some 72) 1
        ⟨true, true, false, []⟩).2.events).length = 32 := by
  decide

/-- C4 (the code violates the lock discipline): on a powered session whose
user buffer faults in `get_user` at the very first octet, the device-file
write handler returns -EFAULT while the per-device mutex is STILL HELD
(`locked = true` in the final state) — the error return inside the copy
loop skips `mutex_unlock`.  (The handler also reads the `power` flag before
acquiring the mutex at all.) -/
theorem write_lock_leak_on_fault :
    (lcd1602a_write (fun _ => false) true (fun _ => none) 1
        ⟨true, true, false, []⟩).1 = -14 ∧
    (lcd1602a_write (fun _ => false) true (fun _ => none) 1
        ⟨true, true, false, []⟩).2.locked = true := by
  decide

lemma writesOf_append : ∀ (a b : List Event),
    writesOf (a ++ b) = writesOf a ++ writesOf b := by
  intro a b
  induction a with
  | nil => rfl
  | cons e rest ih => cases e <;> simp [writesOf, ih]

/-- The event trace of sending a list of characters with `lcd1602a_put_char`. -/
def putCharsEvents (light : Bool) (chars : List Nat) : List Event :=
  (chars.map (dataDelta light)).flatten

lemma putCharsEvents_cons (light : Bool) (c : Nat) (cs : List Nat) :
    putCharsEvents light (c :: cs) = dataDelta light c ++ putCharsEvents light cs := by
  simp [putCharsEvents]

lemma writesOf_dataDelta (l : Bool) (ch : Nat) :
    writesOf (dataDelta l ch) =
      [(if l then K_PIN else 0) ||| (ch &&& 0xf0) ||| RS_PIN ||| E_PIN,
       ((if l then K_PIN else 0) ||| (ch &&& 0xf0) ||| RS_PIN ||| E_PIN) &&& 0xfb,
       (if l then K_PIN else 0) ||| ((ch &&& 0x0f) <<< 4) ||| RS_PIN ||| E_PIN,
       ((if l then K_PIN else 0) ||| ((ch &&& 0x0f) <<< 4) ||| RS_PIN ||| E_PIN) &&& 0xfb] := rfl

lemma decode4_block (a b c d : Nat) (rest : List Nat) :
    decode4 (a :: b :: c :: d :: rest)
      = ((a &&& 0xf0) ||| ((c >>> 4) &&& 0x0f)) :: decode4 rest := rfl

lemma dataDelta_props : ∀ (c : Fin 256) (l : Bool),
    ((((if l then K_PIN else 0) ||| (c.val &&& 0xf0) ||| RS_PIN ||| E_PIN) &&& 0xf0) |||
      ((((if l then K_PIN else 0) ||| ((c.val &&& 0x0f) <<< 4) ||| RS_PIN ||| E_PIN) >>> 4) &&& 0x0f)
      = c.val) ∧
    ((writesOf (dataDelta l c.val)).filter fun w => w.testBit 0)
      = writesOf (dataDelta l c.val) := by
  set_option maxRecDepth 4096 in decide

lemma filter_dataDelta (ch : Nat) (hch : ch < 256) (l : Bool) :
    ((writesOf (dataDelta l ch)).filter fun w => w.testBit 0)
      = writesOf (dataDelta l ch) :=
  (dataDelta_props ⟨ch, hch⟩ l).2

lemma decode4_dataDelta_cons (ch : Nat) (hch : ch < 256) (l : Bool)
    (rest : List Nat) :
    decode4 (writesOf (dataDelta l ch) ++ rest) = ch :: decode4 rest := by
  rw [writesOf_dataDelta]
  simp only [List.cons_append, List.nil_append]
  rw [decode4_block]
  exact congrArg (· :: decode4 rest) ((dataDelta_props ⟨ch, hch⟩ l).1)

lemma sentData_putChars (l : Bool) : ∀ (cs : List Nat), (∀ c ∈ cs, c < 256) →
    decode4 ((writesOf (putCharsEvents l cs)).filter fun w => w.testBit 0) = cs := by
  intro cs
  induction cs with
  | nil => intro _; simp [putCharsEvents, writesOf, decode4]
  | cons c cs ih =>
    intro h
    have hc : c < 256 := h c (List.mem_cons_self c cs)
    rw [putCharsEvents_cons, writesOf_append, List.filter_append,
      filter_dataDelta c hc, decode4_dataDelta_cons c hc,
      ih fun x hx => h x (List.mem_cons_of_mem c hx)]

lemma sentData_poweron_putChars (cs : List Nat) (h : ∀ c ∈ cs, c < 256) :
    sentData (poweronEvents ++ putCharsEvents true cs) = cs := by
  have hcmds : ((writesOf poweronEvents).filter fun w => w.testBit 0) = [] := by
    decide
  rw [sentData, writesOf_append, List.filter_append, hcmds, List.nil_append]
  exact sentData_putChars true cs h

lemma writeLoop_ok (fail : Nat → Bool) (buf : Nat → Option Nat) :
    ∀ (n i : Nat) (s : Sys), (∀ j, j < n → buf (i + j) ≠ none) →
    writeLoop fail buf i n s = Except.ok
      { s with events := (s.events ++ putCharsEvents s.light
          ((List.range n).map fun j => (buf (i + j)).getD 0)) } := by
  intro n
  induction n with
  | zero => intro i s _; simp [writeLoop, putCharsEvents]
  | succ n ih =>
    intro i s h
    have h0 : buf i ≠ none := by
      have := h 0 (Nat.succ_pos n)
      simpa using this
    obtain ⟨ch, hch⟩ := Option.ne_none_iff_exists'.mp h0
    show (match buf i with
          | none => Except.error s
          | some ch => writeLoop fail buf (i + 1) n (lcd1602a_put_char fail s ch)) = _
    rw [hch]
    show writeLoop fail buf (i + 1) n (lcd1602a_put_char fail s ch) = _
    rw [put_char_spec]
    rw [ih (i + 1) _ (fun j hj => by
      have hj1 := h (j + 1) (by omega)
      rwa [show i + (j + 1) = i + 1 + j by omega] at hj1)]
    have hmap : (List.range (n + 1)).map (fun j => (buf (i + j)).getD 0)
        = ch :: (List.range n).map fun j => (buf (i + 1 + j)).getD 0 := by
      rw [List.range_succ_eq_map, List.map_cons, List.map_map]
      refine congrArg₂ _ (by simp [hch]) (List.map_congr_left fun j _ => ?_)
      show (buf (i + (j + 1))).getD 0 = (buf (i + 1 + j)).getD 0
      rw [show i + (j + 1) = i + 1 + j by omega]
    rw [hmap, putCharsEvents_cons, List.append_assoc]

/-- C7: on a powered session with an accessible, fault-free buffer of octets
the device-file write handler processes exactly the first `min count 16`
octets — re-initializing first, then sending each octet in order as
character data — and returns that number: inputs longer than 16 octets are
truncated to 16, shorter inputs are consumed whole. -/
theorem write_truncates_to_16 : ∀ (fail : Nat → Bool) (buf : Nat → Option Nat)
    (count : Nat) (l lk : Bool),
    (∀ i, i < min count 16 → ∃ v, buf i = some v ∧ v < 256) →
    (lcd1602a_write fail true buf count ⟨true, l, lk, []⟩).1
      = ((min count 16 : Nat) : Int) ∧
    sentData (lcd1602a_write fail true buf count ⟨true, l, lk, []⟩).2.events
      = (List.range (min count 16)).map fun i => (buf i).getD 0 := by
  intro fail buf count l lk h
  have trunc : (if count > 16 then 16 else count) = min count 16 := by
    split <;> omega
  have hstate : lcd1602a_poweron fail (mutex_lock ⟨true, l, lk, []⟩)
      = ⟨true, true, true, [] ++ poweronEvents⟩ := by
    simp [poweron_spec, mutex_lock]
  have hloop : writeLoop fail buf 0 (min count 16)
        (⟨true, true, true, [] ++ poweronEvents⟩ : Sys)
      = Except.ok ⟨true, true, true, (([] ++ poweronEvents) ++ putCharsEvents true
          ((List.range (min count 16)).map fun j => (buf j).getD 0))⟩ := by
    have hw := writeLoop_ok fail buf (min count 16) 0
        (⟨true, true, true, [] ++ poweronEvents⟩ : Sys)
        (fun j hj => by
          obtain ⟨v, hv, _⟩ := h j (by simpa using hj)
          simp [Nat.zero_add, hv])
    simpa [Nat.zero_add] using hw
  have e : lcd1602a_write fail true buf count ⟨true, l, lk, []⟩
      = (((min count 16 : Nat) : Int),
         ⟨true, true, false, (([] ++ poweronEvents) ++ putCharsEvents true
            ((List.range (min count 16)).map fun j => (buf j).getD 0))⟩) := by
    show (match writeLoop fail buf 0 (if count > 16 then 16 else count)
            (lcd1602a_poweron fail (mutex_lock ⟨true, l, lk, []⟩)) with
          | Except.error s => ((-14 : Int), s)
          | Except.ok s =>
              (((if count > 16 then 16 else count : Nat) : Int), mutex_unlock s)) = _
    rw [trunc, hstate, hloop]
    rfl
  refine ⟨by rw [e], ?_⟩
  rw [e]
  show sentData (([] ++ poweronEvents) ++ putCharsEvents true
      ((List.range (min count 16)).map fun j => (buf j).getD 0)) = _
  rw [List.nil_append]
  refine sentData_poweron_putChars _ fun c hc => ?_
  obtain ⟨j, hj, hcj⟩ := List.mem_map.mp hc
  obtain ⟨v, hv, hv256⟩ := h j (List.mem_range.mp hj)
  rw [← hcj, hv]
  exact hv256

/-- Witness for C7: a 20-octet fault-free buffer is truncated to its first
16 octets, which come back out of the trace as character data in order. -/
theorem write_truncates_to_16_witness :
    (∀ i, i < min 20 16 → ∃ v, (fun j => some (65 + j) : Nat → Option Nat) i = some v ∧ v < 256) ∧
    ((lcd1602a_write (fun _ => false) true (fun j => some (65 + j)) 20
        ⟨true, true, false, []⟩).1 = ((min 20 16 : Nat) : Int) ∧
     sentData (lcd1602a_write (fun _ => false) true (fun j => some (65 + j)) 20
        ⟨true, true, false, []⟩).2.events
       = (List.range (min 20 16)).map fun i =>
           ((fun j => some (65 + j) : Nat → Option Nat) i).getD 0) :=
  ⟨fun i _ => ⟨65 + i, rfl, by omega⟩,
   write_truncates_to_16 (fun _ => false) (fun j => some (65 + j)) 20 true false
     fun i _ => ⟨65 + i, rfl, by omega⟩⟩

lemma writeLoop_flags (fail : Nat → Bool) (buf : Nat → Option Nat) :
    ∀ (n i : Nat) (s t : Sys),
    (writeLoop fail buf i n s = Except.ok t ∨
     writeLoop fail buf i n s = Except.error t) →
    t.power = s.power ∧ t.light = s.light := by
  intro n
  induction n with
  | zero =>
    intro i s t h
    rcases h with h | h
    · have hst : s = t := by simpa [writeLoop] using h
      rw [← hst]; exact ⟨rfl, rfl⟩
    · simp [writeLoop] at h
  | succ n ih =>
    intro i s t h
    cases hb : buf i with
    | none =>
      have hred : writeLoop fail buf i (n + 1) s = Except.error s := by
        show (match buf i with
              | none => Except.error s
              | some ch => writeLoop fail buf (i + 1) n (lcd1602a_put_char fail s ch)) = _
        rw [hb]
      rcases h with h | h
      · rw [hred] at h; simp at h
      · rw [hred] at h
        have hst : s = t := by simpa using h
        rw [← hst]; exact ⟨rfl, rfl⟩
    | some ch =>
      have hred : writeLoop fail buf i (n + 1) s
          = writeLoop fail buf (i + 1) n (lcd1602a_put_char fail s ch) := by
        show (match buf i with
              | none => Except.error s
              | some ch => writeLoop fail buf (i + 1) n (lcd1602a_put_char fail s ch)) = _
        rw [hb]
      rw [hred] at h
      have hput : (lcd1602a_put_char fail s ch).power = s.power ∧
          (lcd1602a_put_char fail s ch).light = s.light := by
        rw [put_char_spec]; exact ⟨rfl, rfl⟩
      have hrec := ih (i + 1) (lcd1602a_put_char fail s ch) t h
      exact ⟨hrec.1.trans hput.1, hrec.2.trans hput.2⟩

/-- The public operations a caller can invoke on an attached device. -/
inductive Op where
  | deviceWrite (accessOk : Bool) (buf : Nat → Option Nat) (count : Nat)
  | powerStore (buf : String) (count : Nat)
  | powerShow
  | clearSeq

/-- The state after one public operation. -/
def applyOp (fail : Nat → Bool) (s : Sys) : Op → Sys
  | Op.deviceWrite a buf n => (lcd1602a_write fail a buf n s).2
  | Op.powerStore buf n => (lcd1602a_power_store fail buf n s).2
  | Op.powerShow => (lcd1602a_power_show s).2.2
  | Op.clearSeq => lcd1602a_clear fail s

/-- States reachable from device attach (probe) by public operations. -/
inductive Reachable (fail : Nat → Bool) : Sys → Prop
  | probe : Reachable fail (lcd1602a_probe fail)
  | step (s : Sys) (op : Op) : Reachable fail s → Reachable fail (applyOp fail s op)

lemma write_flags_cases (fail : Nat → Bool) (a : Bool) (buf : Nat → Option Nat)
    (n : Nat) (s : Sys) :
    (lcd1602a_write fail a buf n s).2 = s ∨
    ((lcd1602a_write fail a buf n s).2.power = true ∧
     (lcd1602a_write fail a buf n s).2.light = true) := by
  cases a with
  | false => exact Or.inl rfl
  | true =>
    cases hp : s.power with
    | false =>
      left
      simp [lcd1602a_write, hp]
    | true =>
      right
      simp only [lcd1602a_write, hp, Bool.not_true, Bool.not_false,
        Bool.false_eq_true, if_false, if_true, Bool.true_eq_false]
      cases hw : writeLoop fail buf 0 (if n > 16 then 16 else n)
          (lcd1602a_poweron fail (mutex_lock s)) with
      | error t =>
        have hf := writeLoop_flags fail buf _ 0 _ t (Or.inr hw)
        rw [poweron_spec] at hf
        simpa using hf
      | ok t =>
        have hf := writeLoop_flags fail buf _ 0 _ t (Or.inl hw)
        rw [poweron_spec] at hf
        simp only [mutex_unlock]
        simpa using hf

lemma applyOp_flags (fail : Nat → Bool) (s : Sys) (op : Op)
    (h : s.power = s.light) :
    (applyOp fail s op).power = (applyOp fail s op).light := by
  cases op with
  | deviceWrite a buf n =>
    rcases write_flags_cases fail a buf n s with hc | hc
    · show (lcd1602a_write fail a buf n s).2.power = (lcd1602a_write fail a buf n s).2.light
      rw [hc]; exact h
    · show (lcd1602a_write fail a buf n s).2.power = (lcd1602a_write fail a buf n s).2.light
      rw [hc.1, hc.2]
  | powerStore buf n =>
    show (lcd1602a_power_store fail buf n s).2.power
        = (lcd1602a_power_store fail buf n s).2.light
    by_cases hz : ((sscanf_d buf).getD 0 : Int) = 0 <;>
      simp [lcd1602a_power_store, hz, poweron_spec, poweroff_spec,
        mutex_lock, mutex_unlock]
  | powerShow =>
    show (lcd1602a_power_show s).2.2.power = (lcd1602a_power_show s).2.2.light
    simpa [lcd1602a_power_show, mutex_lock, mutex_unlock] using h
  | clearSeq =>
    show (lcd1602a_clear fail s).power = (lcd1602a_clear fail s).light
    rw [clear_spec]
    exact h

/-- C9: in every state reachable at the completion of a public operation
(device attach, device-file write, power store, power show, clear), the
`power` and `light` flags are equal — the backlight is on exactly when the
display is powered, and both are false only in the fully off state. -/
theorem power_light_invariant : ∀ (fail : Nat → Bool) (s : Sys),
    Reachable fail s → s.power = s.light := by
  intro fail s h
  induction h with
  | probe => simp [lcd1602a_probe, poweron_spec]
  | step s op _ ih => exact applyOp_flags fail s op ih

/-- Witness for C9: the invariant instantiated at the state right after
device attach. -/
theorem power_light_invariant_witness :
    (lcd1602a_probe fun _ => false).power = (lcd1602a_probe fun _ => false).light :=
  power_light_invariant (fun _ => false) (lcd1602a_probe fun _ => false)
    Reachable.probe
